import Mathlib

/-!
Verification of the predictive-maintenance agent's VannaManager /
contamination-prevention layer
(`src/predictive_maintenance_agent/vanna_manager.py` and `vanna_util.py`).

The Python code is shallowly embedded: each method becomes a pure Lean
function on an explicit state record; the external LLM / vector-store
collaborators are abstracted as inputs (a `GenOutcome` for the generator
call, a list of training examples for the vector index).
-/

/-! ## String primitives (Python semantics: `strip`, `in`, `split`) -/

/-- Whitespace characters recognised by Python's `str.strip` and the
regex class used by the sanitizer (ASCII subset, which is all that
occurs in the embedded strings). -/
def isSpace (c : Char) : Bool :=
  c == ' ' || c == '\t' || c == '\n' || c == '\r' || c == '\x0b' || c == '\x0c'

/-- Strip leading and trailing whitespace from a character list
(Python `str.strip()`). -/
def stripChars (l : List Char) : List Char :=
  ((l.dropWhile isSpace).reverse.dropWhile isSpace).reverse

/-- Python `str.strip()` on a `String`. -/
def pyStrip (s : String) : String :=
  String.mk (stripChars s.data)

/-- Is `n` a leading block of `h` (character-exact)? -/
def listIsPref : List Char → List Char → Bool
  | [], _ => true
  | _ :: _, [] => false
  | a :: as, b :: bs => a == b && listIsPref as bs

/-- Substring test on character lists (Python `needle in hay`). -/
def listContainsSub (needle : List Char) : List Char → Bool
  | [] => listIsPref needle []
  | c :: t => listIsPref needle (c :: t) || listContainsSub needle t

/-- Substring test on strings (Python `needle in hay`, case-sensitive). -/
def containsSub (needle hay : String) : Bool :=
  listContainsSub needle.data hay.data

/-- Drop `pat` from the front of `l` if it matches exactly. -/
def dropExact : List Char → List Char → Option (List Char)
  | [], l => some l
  | _ :: _, [] => none
  | p :: ps, c :: cs => if p == c then dropExact ps cs else none

/-- Drop `pat` from the front of `l`, comparing case-insensitively
(Python `re.IGNORECASE`). -/
def dropCaseless : List Char → List Char → Option (List Char)
  | [], l => some l
  | _ :: _, [] => none
  | p :: ps, c :: cs => if p.toLower == c.toLower then dropCaseless ps cs else none

/-- Drop one optional leading newline (the `\n?` part of the code-fence
patterns). -/
def dropOptNl : List Char → List Char
  | [] => []
  | c :: r => if c = '\n' then r else c :: r

/-- Worker for `removeFences`; the fuel argument is always at least the
length of the list being scanned (each step strictly shortens it), so
the fuel-exhausted branch is only reached on the empty list. -/
def removeFencesAux (p0 : Char) (ps : List Char) : Nat → List Char → List Char
  | 0, l => l
  | _ + 1, [] => []
  | n + 1, c :: cs =>
    match dropExact (p0 :: ps) (c :: cs) with
    | some rest => removeFencesAux p0 ps n (dropOptNl rest)
    | none => c :: removeFencesAux p0 ps n cs

/-- Remove every occurrence of the pattern `p0 :: ps` together with one
optional newline that follows it (Python `re.sub(pat + r'\n?', '', s)`
for a literal pattern, scanning left to right, resuming after each
match). -/
def removeFences (p0 : Char) (ps : List Char) (l : List Char) : List Char :=
  removeFencesAux p0 ps l.length l

/-- Split a character list on newline characters, keeping empty pieces
(Python `str.split('\n')`). -/
def splitNl : List Char → List (List Char)
  | [] => [[]]
  | c :: t =>
    if c = '\n' then [] :: splitNl t
    else
      match splitNl t with
      | h :: r => (c :: h) :: r
      | [] => [[c]]

/-- Join pieces with newline characters (Python `'\n'.join(...)`). -/
def joinNl : List (List Char) → List Char
  | [] => []
  | [l] => l
  | l :: ls => l ++ '\n' :: joinNl ls

/-! ## Output sanitization (`NIMCustomLLM.submit_prompt`, vanna_util.py 62-107)

The network call `self.client.invoke(prompt)` is external; its textual
result is the input of the cleaning pipeline embedded below. -/

/-- First anchored prefix substitution of `submit_prompt`:
`re.sub(r'^(Here is the SQL query|The SQL query is|SQL query:)\s*', '', s, flags=re.IGNORECASE)`.
Anchored at the start (no MULTILINE), so at most one replacement;
alternatives are tried in order; trailing whitespace is consumed
greedily. -/
def stripLeadPhrase1 (l : List Char) : List Char :=
  match dropCaseless "Here is the SQL query".data l with
  | some r => r.dropWhile isSpace
  | none =>
    match dropCaseless "The SQL query is".data l with
    | some r => r.dropWhile isSpace
    | none =>
      match dropCaseless "SQL query:".data l with
      | some r => r.dropWhile isSpace
      | none => l

/-- Second anchored prefix substitution of `submit_prompt`:
`re.sub(r'^(It seems like|Based on|The query)', '', s, flags=re.IGNORECASE)`. -/
def stripLeadPhrase2 (l : List Char) : List Char :=
  match dropCaseless "It seems like".data l with
  | some r => r
  | none =>
    match dropCaseless "Based on".data l with
    | some r => r
    | none =>
      match dropCaseless "The query".data l with
      | some r => r
      | none => l

/-- Does a (stripped) line match
`re.match(r'^(SELECT|INSERT|UPDATE|DELETE|WITH|CREATE|ALTER|DROP)\s+', line, re.IGNORECASE)`:
a statement keyword followed by at least one whitespace character. -/
def matchesKeyword (t : List Char) : Bool :=
  ["SELECT", "INSERT", "UPDATE", "DELETE", "WITH", "CREATE", "ALTER", "DROP"].any
    fun k =>
      match dropCaseless k.data t with
      | some (c :: _) => isSpace c
      | _ => false

/-- Does a (stripped) line match the prose-resumption heuristic
`re.match(r'^(Here|The|This|Based|It|Query)', line, re.IGNORECASE)`. -/
def matchesProse (t : List Char) : Bool :=
  ["Here", "The", "This", "Based", "It", "Query"].any
    fun p => (dropCaseless p.data t).isSome

/-- The line-extraction loop of `submit_prompt` (vanna_util.py 81-95):
strip each line, skip blanks, start collecting at a keyword line, keep
collecting lines that do not match the prose heuristic, and stop at the
first prose-matching line once collection has started. The Boolean
argument is the loop's `found_sql` flag. -/
def extractSqlLines : List (List Char) → Bool → List (List Char)
  | [], _ => []
  | l :: rest, found =>
    let t := stripChars l
    if t.isEmpty then extractSqlLines rest found
    else if matchesKeyword t then t :: extractSqlLines rest true
    else if found && !(matchesProse t) then t :: extractSqlLines rest true
    else if found then []
    else extractSqlLines rest false

/-- The response-cleaning portion of `NIMCustomLLM.submit_prompt`
(vanna_util.py 62-107), as a function of the raw LLM response text
`response.content`: strip, remove code fences, remove the two families
of conversational prefixes, run the per-line SQL extraction, and strip
the result. -/
def NIMCustomLLM.cleanResponseContent (response : String) : String :=
  let rc0 := stripChars response.data
  let rc1 := removeFences '`' "``sql".data rc0
  let rc2 := removeFences '`' "``".data rc1
  let rc3 := stripLeadPhrase1 rc2
  let rc4 := stripLeadPhrase2 rc3
  let sqlLines := extractSqlLines (splitNl rc4) false
  let rc5 := if sqlLines.isEmpty then rc4 else joinNl sqlLines
  String.mk (stripChars rc5)

/-- Declarative description of the extraction loop, for the refinement
theorem: strip all lines and drop blanks, drop everything before the
first keyword line, then keep that line and the following lines up to
(but not including) the first one that matches the prose heuristic. -/
def extractSqlLinesSpec (ls : List (List Char)) : List (List Char) :=
  let cleaned := (ls.map stripChars).filter fun t => !t.isEmpty
  match cleaned.dropWhile (fun t => !matchesKeyword t) with
  | [] => []
  | first :: rest =>
    first :: rest.takeWhile fun t => matchesKeyword t || !(matchesProse t)

/-! ## Contamination-prevention wrapper (`ContaminationPreventionVanna`,
vanna_manager.py 214-280, over `NIMVanna`, vanna_util.py 109-186)

The vector index owned by the underlying ChromaDB store is modelled as
the list of training examples written to it; Python object identity is
modelled by an explicit `instId` field. -/

/-- A training example passed to `train` (question/SQL pair, DDL, or
documentation). -/
structure TrainingExample where
  question : Option String
  sql : Option String
  ddl : Option String
  documentation : Option String
deriving DecidableEq

/-- State of a `ContaminationPreventionVanna` object (including the
fields inherited from `NIMVanna`). -/
structure ContaminationPreventionVanna where
  instId : Nat
  strict_mode : Bool
  auto_train_enabled : Bool
  blocked_train_attempts : Nat
  allow_llm_to_see_data : Bool
  vector_index : List TrainingExample
deriving DecidableEq

/-- A freshly constructed `ContaminationPreventionVanna` (its `__init__`
runs `NIMVanna.__init__`, which sets `_auto_train_enabled = False` and
`allow_llm_to_see_data = True`, then sets `_strict_mode = True` and
zeroes the blocked-attempt counter). `idx` is the content the persistent
ChromaDB store already holds at the given path. -/
def ContaminationPreventionVanna.mkFresh (i : Nat) (idx : List TrainingExample) :
    ContaminationPreventionVanna :=
  { instId := i
    strict_mode := true
    auto_train_enabled := false
    blocked_train_attempts := 0
    allow_llm_to_see_data := true
    vector_index := idx }

/-- `NIMVanna.train` (vanna_util.py 134-145): blocked unless
`_auto_train_enabled` is set, in which case the write is delegated to
the vector store (`super().train`), modelled as appending the example. -/
def NIMVanna.train (v : ContaminationPreventionVanna) (ex : TrainingExample) :
    ContaminationPreventionVanna :=
  if v.auto_train_enabled then
    { v with vector_index := v.vector_index ++ [ex] }
  else v

/-- `ContaminationPreventionVanna.train` (vanna_manager.py 224-239):
in strict mode with auto-training off, count and block the attempt;
with auto-training on, delegate to `NIMVanna.train`; otherwise log and
return without writing. -/
def ContaminationPreventionVanna.train (v : ContaminationPreventionVanna)
    (ex : TrainingExample) : ContaminationPreventionVanna :=
  if v.strict_mode && !v.auto_train_enabled then
    { v with blocked_train_attempts := v.blocked_train_attempts + 1 }
  else if v.auto_train_enabled then
    NIMVanna.train v ex
  else v

/-- `ContaminationPreventionVanna.enable_auto_training`
(vanna_manager.py 241-245): enables the flag (via `NIMVanna`) and
disables strict mode. -/
def ContaminationPreventionVanna.enable_auto_training
    (v : ContaminationPreventionVanna) : ContaminationPreventionVanna :=
  { v with auto_train_enabled := true, strict_mode := false }

/-- `ContaminationPreventionVanna.disable_auto_training`
(vanna_manager.py 247-251): disables the flag (via `NIMVanna`) and
re-enables strict mode. -/
def ContaminationPreventionVanna.disable_auto_training
    (v : ContaminationPreventionVanna) : ContaminationPreventionVanna :=
  { v with auto_train_enabled := false, strict_mode := true }

/-- The state effect of `ContaminationPreventionVanna.generate_sql`
(vanna_manager.py 253-280) together with the inherited
`NIMVanna.generate_sql` (vanna_util.py 157-186): force
`allow_llm_to_see_data = True` and `_strict_mode = True`, and disable
auto-training if it was left enabled. The actual LLM call is external;
its outcome is supplied separately. -/
def ContaminationPreventionVanna.generate_sql_state
    (v : ContaminationPreventionVanna) : ContaminationPreventionVanna :=
  let v1 := { v with allow_llm_to_see_data := true, strict_mode := true }
  if v1.auto_train_enabled then v1.disable_auto_training else v1

/-- States of a `ContaminationPreventionVanna` object reachable through
its public interface, starting from construction. -/
inductive CPVReachable : ContaminationPreventionVanna → Prop
  | mk (i : Nat) (idx : List TrainingExample) :
      CPVReachable (ContaminationPreventionVanna.mkFresh i idx)
  | trainStep (v : ContaminationPreventionVanna) (ex : TrainingExample) :
      CPVReachable v → CPVReachable (v.train ex)
  | enableStep (v : ContaminationPreventionVanna) :
      CPVReachable v → CPVReachable v.enable_auto_training
  | disableStep (v : ContaminationPreventionVanna) :
      CPVReachable v → CPVReachable v.disable_auto_training
  | genStep (v : ContaminationPreventionVanna) :
      CPVReachable v → CPVReachable v.generate_sql_state

/-! ## Instance manager (`VannaManager`, vanna_manager.py 13-212)

Wall-clock time (`time.time()`) is passed in as a `Nat` parameter;
the Python `id()` of a newly allocated instance is modelled by a
monotone `next_id` supply. The usage counter is embedded as `Int`
(Python's unbounded signed integer), so that its non-negativity is a
property of the code rather than of the type. -/

/-- State of one `VannaManager` object. -/
structure VannaManager where
  config_key : String
  vanna_instance : Option ContaminationPreventionVanna
  query_count : Int
  contamination_threshold : Int
  last_reset_time : Nat
  initialized : Bool
  next_id : Nat
deriving DecidableEq

/-- Outcome of the external generator call
(`self.vanna_instance.generate_sql(...)`): either a returned SQL string
or a raised exception. -/
inductive GenOutcome where
  | ok (sql : String)
  | err
deriving DecidableEq

/-- The errors `generate_sql_safe` can raise: no instance available,
empty SQL response, contaminated response, or a re-raised generator
exception. -/
inductive SqlError where
  | noInstance
  | emptySql
  | contaminated
  | genFailure
deriving DecidableEq

/-- The contamination-indicator list of
`VannaManager._is_contaminated_response` (vanna_manager.py 161-172). -/
def contamination_indicators : List String :=
  ["not allowed to see the data", "database introspection", "Error:",
   "Cannot generate", "Unable to process", "Invalid request", "\x7b\x27",
   "[object Object]", "undefined", "null"]

/-- `VannaManager._is_contaminated_response` (vanna_manager.py 157-178):
a case-sensitive substring test against the fixed indicator list. -/
def VannaManager.is_contaminated_response (sql : String) : Bool :=
  contamination_indicators.any fun ind => containsSub ind sql

/-- `VannaManager._reset_instance` (vanna_manager.py 180-193): drop the
instance reference, zero the usage counter, record the reset time. -/
def VannaManager.reset_instance (m : VannaManager) (now : Nat) : VannaManager :=
  { m with vanna_instance := none, query_count := 0, last_reset_time := now }

/-- `VannaManager.force_reset` (vanna_manager.py 195-200). -/
def VannaManager.force_reset (m : VannaManager) (now : Nat) : VannaManager :=
  m.reset_instance now

/-- `VannaManager.get_instance` (vanna_manager.py 51-70): reset if the
usage counter has reached the contamination threshold, then create a
fresh instance (`_create_clean_instance`, modelled by drawing a fresh
identity and starting from the persisted index `idx`) if none exists;
return the current instance. -/
def VannaManager.get_instance (m : VannaManager) (now : Nat)
    (idx : List TrainingExample) : VannaManager × ContaminationPreventionVanna :=
  let m1 :=
    if m.vanna_instance.isSome && decide (m.query_count ≥ m.contamination_threshold)
    then m.reset_instance now else m
  match m1.vanna_instance with
  | some v => (m1, v)
  | none =>
    let fresh := ContaminationPreventionVanna.mkFresh m1.next_id idx
    ({ m1 with
        vanna_instance := some fresh
        next_id := m1.next_id + 1
        query_count := 0
        last_reset_time := now }, fresh)

/-- `VannaManager.generate_sql_safe` (vanna_manager.py 118-155): fail if
no instance exists; increment the usage counter; force the instance
clean (`allow_llm_to_see_data = True`, auto-training disabled) and apply
the generator's own state effect; then dispatch on the generator
outcome: a raised exception is re-raised (after a proactive reset when
the counter is a multiple of 10), an empty result raises the same way,
a contaminated result resets the instance and raises, and otherwise the
SQL is returned. -/
def VannaManager.generate_sql_safe (m : VannaManager) (outcome : GenOutcome)
    (now : Nat) : Except SqlError String × VannaManager :=
  match m.vanna_instance with
  | none => (.error .noInstance, m)
  | some v0 =>
    let v1 := ContaminationPreventionVanna.generate_sql_state
      (ContaminationPreventionVanna.disable_auto_training
        { v0 with allow_llm_to_see_data := true })
    let m1 := { m with vanna_instance := some v1, query_count := m.query_count + 1 }
    match outcome with
    | .err =>
      let m2 := if m1.query_count % 10 == 0 then m1.reset_instance now else m1
      (.error .genFailure, m2)
    | .ok sql =>
      if pyStrip sql = "" then
        let m2 := if m1.query_count % 10 == 0 then m1.reset_instance now else m1
        (.error .emptySql, m2)
      else if VannaManager.is_contaminated_response sql then
        let m2 := m1.reset_instance now
        let m3 := if m2.query_count % 10 == 0 then m2.reset_instance now else m2
        (.error .contaminated, m3)
      else (.ok sql, m1)

/-- A freshly initialized `VannaManager` (`__init__`, vanna_manager.py
36-49, run on a new allocation): no instance, zero counter, threshold
50, initialized flag set. -/
def VannaManager.mkInit (key : String) (now : Nat) : VannaManager :=
  { config_key := key
    vanna_instance := none
    query_count := 0
    contamination_threshold := 50
    last_reset_time := now
    initialized := true
    next_id := 0 }

/-- Manager states reachable through the public interface. -/
inductive MReachable : VannaManager → Prop
  | init (key : String) (now : Nat) : MReachable (VannaManager.mkInit key now)
  | getStep (m : VannaManager) (now : Nat) (idx : List TrainingExample) :
      MReachable m → MReachable (m.get_instance now idx).1
  | genStep (m : VannaManager) (outcome : GenOutcome) (now : Nat) :
      MReachable m → MReachable (m.generate_sql_safe outcome now).2
  | resetStep (m : VannaManager) (now : Nat) :
      MReachable m → MReachable (m.force_reset now)

/-! ## Singleton registry (`VannaManager.__new__` / `__init__`,
vanna_manager.py 25-49)

The class-level dictionary `VannaManager._instances` is modelled as a
function from config keys to optional manager states. -/

/-- The allocation performed by `__new__` for an unseen key: a bare
object whose `_initialized` attribute is set to `False`; the remaining
fields stand for not-yet-assigned attributes and are given placeholder
values that `__init__` immediately overwrites. -/
def VannaManager.allocRaw (key : String) : VannaManager :=
  { config_key := key
    vanna_instance := none
    query_count := 0
    contamination_threshold := 0
    last_reset_time := 0
    initialized := false
    next_id := 0 }

/-- `VannaManager.__init__` (vanna_manager.py 36-49): an early return
when the object is already initialized; otherwise assign the fields and
set the initialized flag. -/
def VannaManager.ctorInit (key : String) (now : Nat) (m : VannaManager) :
    VannaManager :=
  if m.initialized then m
  else
    { m with
        config_key := key
        vanna_instance := none
        last_reset_time := now
        query_count := 0
        contamination_threshold := 50
        initialized := true }

/-- `VannaManager(config_key)` as a whole — `__new__` (reuse or allocate
and register, vanna_manager.py 28-34) followed by `__init__`. Returns
the updated registry and the manager object the expression evaluates
to. Since `__init__` mutates the registered object in place, the
registry holds the post-`__init__` state. -/
def VannaManager.construct (reg : String → Option VannaManager) (key : String)
    (now : Nat) : (String → Option VannaManager) × VannaManager :=
  match reg key with
  | some m => (reg, VannaManager.ctorInit key now m)
  | none =>
    let m := VannaManager.ctorInit key now (VannaManager.allocRaw key)
    (fun k => if k = key then some m else reg k, m)

/-- Registry states reachable from the empty registry: constructions,
and in-place mutation of a registered manager by its public
operations. -/
inductive RegReachable : (String → Option VannaManager) → Prop
  | empty : RegReachable fun _ => none
  | constructStep (reg : String → Option VannaManager) (key : String) (now : Nat) :
      RegReachable reg → RegReachable (VannaManager.construct reg key now).1
  | getStep (reg : String → Option VannaManager) (key : String) (m : VannaManager)
      (now : Nat) (idx : List TrainingExample) :
      RegReachable reg → reg key = some m →
      RegReachable (fun k => if k = key then some (m.get_instance now idx).1 else reg k)
  | genStep (reg : String → Option VannaManager) (key : String) (m : VannaManager)
      (outcome : GenOutcome) (now : Nat) :
      RegReachable reg → reg key = some m →
      RegReachable (fun k => if k = key then some (m.generate_sql_safe outcome now).2 else reg k)
  | resetStep (reg : String → Option VannaManager) (key : String) (m : VannaManager)
      (now : Nat) :
      RegReachable reg → reg key = some m →
      RegReachable (fun k => if k = key then some (m.force_reset now) else reg k)

/-! ## Helper lemmas -/

theorem listIsPref_mem : ∀ (n h : List Char), listIsPref n h = true →
    ∀ c ∈ n, c ∈ h := by
  intro n
  induction n with
  | nil => intro h _ c hc; simp at hc
  | cons a as ih =>
    intro h hp c hc
    cases h with
    | nil => simp [listIsPref] at hp
    | cons b bs =>
      simp only [listIsPref, Bool.and_eq_true, beq_iff_eq] at hp
      rcases List.mem_cons.mp hc with h1 | h1
      · subst h1; simp [hp.1]
      · exact List.mem_cons_of_mem _ (ih bs hp.2 c h1)

theorem listContainsSub_mem (n : List Char) : ∀ (h : List Char),
    listContainsSub n h = true → ∀ c ∈ n, c ∈ h := by
  intro h
  induction h with
  | nil =>
    intro hp c hc
    simp only [listContainsSub] at hp
    cases n with
    | nil => simp at hc
    | cons a as => simp [listIsPref] at hp
  | cons b bs ih =>
    intro hp c hc
    simp only [listContainsSub, Bool.or_eq_true] at hp
    rcases hp with h1 | h1
    · exact listIsPref_mem n (b :: bs) h1 c hc
    · exact List.mem_cons_of_mem _ (ih h1 c hc)

theorem stripChars_eq_nil (l : List Char) (h : stripChars l = []) :
    ∀ c ∈ l, isSpace c = true := by
  intro c hc
  unfold stripChars at h
  rw [List.reverse_eq_nil_iff] at h
  rw [List.dropWhile_eq_nil_iff] at h
  have hall : ∀ x ∈ l.dropWhile isSpace, isSpace x = true := by
    intro x hx
    have := h x (by simpa using List.mem_reverse.mpr hx)
    exact this
  rcases List.mem_append.mp
      (by rw [List.takeWhile_append_dropWhile] ; exact hc :
        c ∈ l.takeWhile isSpace ++ l.dropWhile isSpace) with h1 | h1
  · exact List.mem_takeWhile_imp h1
  · exact hall c h1

theorem contaminated_not_blank (sql : String)
    (h : VannaManager.is_contaminated_response sql = true) : pyStrip sql ≠ "" := by
  intro hblank
  have hdata : stripChars sql.data = [] := congrArg String.data hblank
  have hspace : ∀ c ∈ sql.data, isSpace c = true := stripChars_eq_nil _ hdata
  simp only [VannaManager.is_contaminated_response, List.any_eq_true] at h
  obtain ⟨ind, hind, hsub⟩ := h
  have hnsp : ∃ c ∈ ind.data, isSpace c = false := by
    fin_cases hind <;> decide
  obtain ⟨c, hcin, hcns⟩ := hnsp
  have : c ∈ sql.data := listContainsSub_mem ind.data sql.data hsub c hcin
  rw [hspace c this] at hcns
  simp at hcns

theorem generate_sql_safe_none (m : VannaManager) (outcome : GenOutcome) (now : Nat)
    (h : m.vanna_instance = none) :
    m.generate_sql_safe outcome now = (.error .noInstance, m) := by
  simp [VannaManager.generate_sql_safe, h]

theorem generate_sql_safe_contaminated_eq (m : VannaManager)
    (v : ContaminationPreventionVanna) (sql : String) (now : Nat)
    (hv : m.vanna_instance = some v)
    (hc : VannaManager.is_contaminated_response sql = true) :
    m.generate_sql_safe (.ok sql) now =
      (.error .contaminated,
        { m with vanna_instance := none, query_count := 0, last_reset_time := now }) := by
  have hne := contaminated_not_blank sql hc
  simp [VannaManager.generate_sql_safe, hv, hne, hc, VannaManager.reset_instance]

theorem generate_sql_safe_ok_success_eq (m : VannaManager)
    (v : ContaminationPreventionVanna) (sql : String) (now : Nat)
    (hv : m.vanna_instance = some v) (hne : pyStrip sql ≠ "")
    (hnc : VannaManager.is_contaminated_response sql = false) :
    m.generate_sql_safe (.ok sql) now =
      (.ok sql,
        { m with
            vanna_instance := some
              { v with allow_llm_to_see_data := true, strict_mode := true,
                       auto_train_enabled := false }
            query_count := m.query_count + 1 }) := by
  simp [VannaManager.generate_sql_safe, hv, hne, hnc,
        ContaminationPreventionVanna.generate_sql_state,
        ContaminationPreventionVanna.disable_auto_training]

theorem generate_sql_safe_err_eq (m : VannaManager)
    (v : ContaminationPreventionVanna) (now : Nat)
    (hv : m.vanna_instance = some v) :
    m.generate_sql_safe .err now =
      (.error .genFailure,
        if (m.query_count + 1) % 10 == 0 then
          { m with vanna_instance := none, query_count := 0, last_reset_time := now }
        else
          { m with
              vanna_instance := some
                { v with allow_llm_to_see_data := true, strict_mode := true,
                         auto_train_enabled := false }
              query_count := m.query_count + 1 }) := by
  simp only [VannaManager.generate_sql_safe, hv]
  by_cases h10 : (m.query_count + 1) % 10 == 0
  · simp [h10, VannaManager.reset_instance]
  · simp [h10, ContaminationPreventionVanna.generate_sql_state,
          ContaminationPreventionVanna.disable_auto_training]

theorem get_instance_fst_cases (m : VannaManager) (now : Nat)
    (idx : List TrainingExample) :
    (m.get_instance now idx).1 = m ∨
    ((m.get_instance now idx).1.vanna_instance =
        some (ContaminationPreventionVanna.mkFresh m.next_id idx) ∧
      (m.get_instance now idx).2 = ContaminationPreventionVanna.mkFresh m.next_id idx ∧
      (m.get_instance now idx).1.query_count = 0 ∧
      (m.get_instance now idx).1.next_id = m.next_id + 1 ∧
      (m.get_instance now idx).1.initialized = m.initialized) := by
  by_cases hcond :
      (m.vanna_instance.isSome && decide (m.query_count ≥ m.contamination_threshold)) = true
  · right
    simp [VannaManager.get_instance, hcond, VannaManager.reset_instance]
  · cases hv : m.vanna_instance with
    | none =>
      right
      simp [VannaManager.get_instance, hcond, hv]
    | some v =>
      left
      have hlt : ¬ (m.contamination_threshold ≤ m.query_count) := by
        intro hge
        apply hcond
        simp [hv, ge_iff_le, hge]
      simp [VannaManager.get_instance, hcond, hv, hlt]

theorem generate_sql_safe_snd_cases (m : VannaManager) (o : GenOutcome) (now : Nat) :
    (m.generate_sql_safe o now).2 = m ∨
    ((m.generate_sql_safe o now).2.vanna_instance = none ∧
      (m.generate_sql_safe o now).2.query_count = 0 ∧
      (m.generate_sql_safe o now).2.next_id = m.next_id ∧
      (m.generate_sql_safe o now).2.initialized = m.initialized) ∨
    (∃ v0, m.vanna_instance = some v0 ∧
      (m.generate_sql_safe o now).2.vanna_instance =
        some { v0 with allow_llm_to_see_data := true, strict_mode := true,
                       auto_train_enabled := false } ∧
      (m.generate_sql_safe o now).2.query_count = m.query_count + 1 ∧
      (m.generate_sql_safe o now).2.next_id = m.next_id ∧
      (m.generate_sql_safe o now).2.initialized = m.initialized) := by
  cases hv : m.vanna_instance with
  | none => left; rw [generate_sql_safe_none m o now hv]
  | some v0 =>
    cases o with
    | err =>
      rw [generate_sql_safe_err_eq m v0 now hv]
      by_cases h10 : (m.query_count + 1) % 10 == 0
      · right; left; simp [h10]
      · right; right; exact ⟨v0, rfl, by simp [h10]⟩
    | ok sql =>
      by_cases hne : pyStrip sql = ""
      · simp only [VannaManager.generate_sql_safe, hv, hne]
        by_cases h10 : (m.query_count + 1) % 10 == 0
        · right; left; simp [hne, h10, VannaManager.reset_instance]
        · right; right
          refine ⟨v0, rfl, ?_⟩
          simp [hne, h10, ContaminationPreventionVanna.generate_sql_state,
                ContaminationPreventionVanna.disable_auto_training]
      · by_cases hc : VannaManager.is_contaminated_response sql = true
        · rw [generate_sql_safe_contaminated_eq m v0 sql now hv hc]
          right; left; simp
        · rw [generate_sql_safe_ok_success_eq m v0 sql now hv hne
            (Bool.not_eq_true _ ▸ hc)]
          right; right
          exact ⟨v0, rfl, by simp⟩

theorem force_reset_eq (m : VannaManager) (now : Nat) :
    m.force_reset now =
      { m with vanna_instance := none, query_count := 0, last_reset_time := now } := by
  rfl

theorem mreachable_query_count_nonneg (m : VannaManager) (h : MReachable m) :
    0 ≤ m.query_count := by
  induction h with
  | init key now => simp [VannaManager.mkInit]
  | getStep m now idx hm ih =>
    rcases get_instance_fst_cases m now idx with h1 | h1
    · rw [h1]; exact ih
    · rw [h1.2.2.1]
  | genStep m o now hm ih =>
    rcases generate_sql_safe_snd_cases m o now with h1 | h1 | h1
    · rw [h1]; exact ih
    · rw [h1.2.1]
    · obtain ⟨v0, _, _, hq, _, _⟩ := h1
      rw [hq]; omega
  | resetStep m now hm ih =>
    rw [force_reset_eq]

theorem mreachable_instId_lt_next (m : VannaManager) (h : MReachable m) :
    ∀ v, m.vanna_instance = some v → v.instId < m.next_id := by
  induction h with
  | init key now => intro v hv; simp [VannaManager.mkInit] at hv
  | getStep m now idx hm ih =>
    intro v hv
    rcases get_instance_fst_cases m now idx with h1 | h1
    · rw [h1] at hv ⊢; exact ih v hv
    · rw [h1.1] at hv
      rw [h1.2.2.2.1]
      cases hv
      simp [ContaminationPreventionVanna.mkFresh]
  | genStep m o now hm ih =>
    intro v hv
    rcases generate_sql_safe_snd_cases m o now with h1 | h1 | h1
    · rw [h1] at hv ⊢; exact ih v hv
    · rw [h1.1] at hv; cases hv
    · obtain ⟨v0, hv0, hinst, _, hnext, _⟩ := h1
      rw [hinst] at hv
      cases hv
      rw [hnext]
      exact ih v0 hv0
  | resetStep m now hm ih =>
    intro v hv
    rw [force_reset_eq] at hv
    simp at hv

theorem train_flags (v : ContaminationPreventionVanna) (ex : TrainingExample) :
    (v.train ex).strict_mode = v.strict_mode ∧
    (v.train ex).auto_train_enabled = v.auto_train_enabled := by
  unfold ContaminationPreventionVanna.train NIMVanna.train
  repeat' split
  all_goals exact ⟨rfl, rfl⟩

theorem cpv_strict_eq_not_auto (v : ContaminationPreventionVanna)
    (h : CPVReachable v) : v.strict_mode = !v.auto_train_enabled := by
  induction h with
  | mk i idx => rfl
  | trainStep v ex hv ih =>
    rw [(train_flags v ex).1, (train_flags v ex).2]
    exact ih
  | enableStep v hv ih => rfl
  | disableStep v hv ih => rfl
  | genStep v hv ih =>
    by_cases hauto : v.auto_train_enabled
    · simp [ContaminationPreventionVanna.generate_sql_state, hauto,
            ContaminationPreventionVanna.disable_auto_training]
    · simp [ContaminationPreventionVanna.generate_sql_state, hauto]

theorem foldl_ok_success (sqls : List String) : ∀ (m : VannaManager)
    (v : ContaminationPreventionVanna) (now : Nat),
    m.vanna_instance = some v →
    (∀ sql ∈ sqls, pyStrip sql ≠ "" ∧
      VannaManager.is_contaminated_response sql = false) →
    (sqls.foldl (fun mm sql => (mm.generate_sql_safe (.ok sql) now).2) m).query_count =
        m.query_count + sqls.length ∧
    ∃ v1,
      (sqls.foldl (fun mm sql => (mm.generate_sql_safe (.ok sql) now).2) m).vanna_instance =
        some v1 ∧ v1.instId = v.instId := by
  induction sqls with
  | nil =>
    intro m v now hv _
    exact ⟨by simp, v, by simpa using hv, rfl⟩
  | cons sql rest ih =>
    intro m v now hv hall
    have hs := hall sql (List.mem_cons_self _ _)
    rw [List.foldl_cons]
    rw [generate_sql_safe_ok_success_eq m v sql now hv hs.1 hs.2]
    have := ih
      { m with
          vanna_instance := some
            { v with allow_llm_to_see_data := true, strict_mode := true,
                     auto_train_enabled := false }
          query_count := m.query_count + 1 }
      { v with allow_llm_to_see_data := true, strict_mode := true,
               auto_train_enabled := false }
      now rfl (fun s hsm => hall s (List.mem_cons_of_mem _ hsm))
    refine ⟨?_, ?_⟩
    · rw [this.1]
      simp
      omega
    · obtain ⟨v1, hv1, hid⟩ := this.2
      exact ⟨v1, hv1, hid⟩

theorem reg_invariant_initialized (reg : String → Option VannaManager)
    (h : RegReachable reg) : ∀ k m, reg k = some m → m.initialized = true := by
  induction h with
  | empty => intro k m hk; simp at hk
  | constructStep reg key now hr ih =>
    intro k m hk
    unfold VannaManager.construct at hk
    cases hreg : reg key with
    | some m0 =>
      rw [hreg] at hk
      exact ih k m hk
    | none =>
      rw [hreg] at hk
      simp only at hk
      by_cases hkey : k = key
      · subst hkey
        simp at hk
        subst hk
        simp [VannaManager.ctorInit, VannaManager.allocRaw]
      · simp [hkey] at hk
        exact ih k m hk
  | getStep reg key m0 now idx hr hkm ih =>
    intro k m hk
    by_cases hkey : k = key
    · subst hkey
      simp at hk
      rcases get_instance_fst_cases m0 now idx with h1 | h1
      · rw [h1] at hk; subst hk; exact ih k m0 hkm
      · rw [← hk]
        rw [h1.2.2.2.2]
        exact ih k m0 hkm
    · simp [hkey] at hk
      exact ih k m hk
  | genStep reg key m0 outcome now hr hkm ih =>
    intro k m hk
    by_cases hkey : k = key
    · subst hkey
      simp at hk
      rcases generate_sql_safe_snd_cases m0 outcome now with h1 | h1 | h1
      · rw [h1] at hk; subst hk; exact ih k m0 hkm
      · rw [← hk, h1.2.2.2]
        exact ih k m0 hkm
      · obtain ⟨v0, _, _, _, _, hinit⟩ := h1
        rw [← hk, hinit]
        exact ih k m0 hkm
    · simp [hkey] at hk
      exact ih k m hk
  | resetStep reg key m0 now hr hkm ih =>
    intro k m hk
    by_cases hkey : k = key
    · subst hkey
      simp at hk
      rw [← hk, force_reset_eq]
      exact ih k m0 hkm
    · simp [hkey] at hk
      exact ih k m hk

theorem construct_noop_of_registered (reg : String → Option VannaManager)
    (h : RegReachable reg) (k : String) (m : VannaManager) (now : Nat)
    (hk : reg k = some m) :
    VannaManager.construct reg k now = (reg, m) := by
  have hinit := reg_invariant_initialized reg h k m hk
  unfold VannaManager.construct
  rw [hk]
  simp [VannaManager.ctorInit, hinit]

theorem extractSqlLines_true_eq (ls : List (List Char)) :
    extractSqlLines ls true =
      ((ls.map stripChars).filter fun t => !t.isEmpty).takeWhile
        fun t => matchesKeyword t || !(matchesProse t) := by
  induction ls with
  | nil => simp [extractSqlLines]
  | cons l rest ih =>
    simp only [extractSqlLines, List.map_cons, List.filter_cons]
    by_cases he : (stripChars l).isEmpty
    · simp [he, ih]
    · by_cases hk : matchesKeyword (stripChars l)
      · simp [he, hk, List.takeWhile_cons, ih]
      · by_cases hp : matchesProse (stripChars l)
        · simp [he, hk, hp, List.takeWhile_cons]
        · simp [he, hk, hp, List.takeWhile_cons, ih]

theorem extractSqlLines_eq_spec (ls : List (List Char)) :
    extractSqlLines ls false = extractSqlLinesSpec ls := by
  induction ls with
  | nil => simp [extractSqlLines, extractSqlLinesSpec]
  | cons l rest ih =>
    simp only [extractSqlLines, extractSqlLinesSpec, List.map_cons, List.filter_cons]
    by_cases he : (stripChars l).isEmpty
    · simp only [he]
      simpa [extractSqlLinesSpec] using ih
    · by_cases hk : matchesKeyword (stripChars l)
      · simp [he, hk, List.dropWhile_cons, extractSqlLines_true_eq]
      · simp only [he, hk]
        simp only [Bool.false_and, if_false, Bool.and_false]
        simpa [extractSqlLinesSpec, List.dropWhile_cons, hk] using ih

theorem train_index_unchanged_of_auto_false (v : ContaminationPreventionVanna)
    (ex : TrainingExample) (ha : v.auto_train_enabled = false) :
    (v.train ex).vector_index = v.vector_index := by
  unfold ContaminationPreventionVanna.train NIMVanna.train
  by_cases hs : v.strict_mode <;> simp [hs, ha]

/-! ## Claims -/

/-- C1: every `train` call on the contamination-prevention wrapper made in a
reachable state with strict mode on is a no-op on the vector index and only
increments the blocked-attempt counter; any `train` call that does change the
vector index was made with strict mode disabled (and auto-training enabled);
and `train` called while the initialization flag (`_auto_train_enabled`) is
false never alters the vector index. -/
theorem c1_strict_mode_train_is_blocked :
    (∀ (v : ContaminationPreventionVanna) (ex : TrainingExample),
        CPVReachable v → v.strict_mode = true →
        v.train ex =
          { v with blocked_train_attempts := v.blocked_train_attempts + 1 }) ∧
    (∀ (v : ContaminationPreventionVanna) (ex : TrainingExample),
        CPVReachable v → (v.train ex).vector_index ≠ v.vector_index →
        v.strict_mode = false ∧ v.auto_train_enabled = true) ∧
    (∀ (v : ContaminationPreventionVanna) (ex : TrainingExample),
        v.auto_train_enabled = false → (v.train ex).vector_index = v.vector_index) := by
  refine ⟨?_, ?_, fun v ex ha => train_index_unchanged_of_auto_false v ex ha⟩
  · intro v ex hr hs
    have hflag := cpv_strict_eq_not_auto v hr
    rw [hs] at hflag
    have hauto : v.auto_train_enabled = false := by
      cases hv : v.auto_train_enabled
      · rfl
      · rw [hv] at hflag; simp at hflag
    unfold ContaminationPreventionVanna.train
    simp [hs, hauto]
  · intro v ex hr hne
    have hflag := cpv_strict_eq_not_auto v hr
    cases ha : v.auto_train_enabled
    · exact absurd (train_index_unchanged_of_auto_false v ex ha) hne
    · rw [ha] at hflag
      simp at hflag
      exact ⟨hflag, rfl⟩

/-- Witness for C1 at a freshly constructed wrapper (strict mode on): the
training attempt is blocked and counted. -/
theorem c1_witness :
    (ContaminationPreventionVanna.mkFresh 0 []).train ⟨none, none, none, some "doc"⟩ =
      { ContaminationPreventionVanna.mkFresh 0 [] with blocked_train_attempts := 0 + 1 } :=
  c1_strict_mode_train_is_blocked.1 (ContaminationPreventionVanna.mkFresh 0 [])
    ⟨none, none, none, some "doc"⟩ (CPVReachable.mk 0 []) rfl

/-- C2: whenever the generator output matches a contamination signature,
`generate_sql_safe` raises the contamination error and, before it propagates,
resets the instance: the stored reference is cleared and the usage counter is
zeroed. In particular, for the response
`"Error: not allowed to see the data"` the error is raised and the stored
instance after the call differs from the one before. -/
theorem c2_contamination_resets_instance :
    (∀ (m : VannaManager) (v : ContaminationPreventionVanna) (sql : String) (now : Nat),
        m.vanna_instance = some v →
        VannaManager.is_contaminated_response sql = true →
        m.generate_sql_safe (.ok sql) now =
          (.error .contaminated,
            { m with vanna_instance := none, query_count := 0,
                     last_reset_time := now })) ∧
    (∀ (m : VannaManager) (v : ContaminationPreventionVanna) (now : Nat),
        m.vanna_instance = some v →
        (m.generate_sql_safe (.ok "Error: not allowed to see the data") now).1 =
          .error .contaminated ∧
        (m.generate_sql_safe (.ok "Error: not allowed to see the data") now).2.vanna_instance ≠
          m.vanna_instance ∧
        (m.generate_sql_safe (.ok "Error: not allowed to see the data") now).2.query_count = 0) := by
  refine ⟨fun m v sql now hv hc => generate_sql_safe_contaminated_eq m v sql now hv hc, ?_⟩
  intro m v now hv
  have hc : VannaManager.is_contaminated_response
      "Error: not allowed to see the data" = true := by decide
  rw [generate_sql_safe_contaminated_eq m v _ now hv hc]
  refine ⟨rfl, ?_, rfl⟩
  simp [hv]

/-- Witness for C2 on a concrete manager holding a live instance. -/
theorem c2_witness :
    ((((VannaManager.mkInit "k" 0).get_instance 0 []).1).generate_sql_safe
        (.ok "Error: not allowed to see the data") 7).1 = .error .contaminated ∧
    ((((VannaManager.mkInit "k" 0).get_instance 0 []).1).generate_sql_safe
        (.ok "Error: not allowed to see the data") 7).2.vanna_instance ≠
      (((VannaManager.mkInit "k" 0).get_instance 0 []).1).vanna_instance ∧
    ((((VannaManager.mkInit "k" 0).get_instance 0 []).1).generate_sql_safe
        (.ok "Error: not allowed to see the data") 7).2.query_count = 0 :=
  c2_contamination_resets_instance.2 (((VannaManager.mkInit "k" 0).get_instance 0 []).1)
    (ContaminationPreventionVanna.mkFresh 0 []) 7 rfl

/-- C6: with no instance stored for the key, `generate_sql_safe` fails with
the NoInstance error and the manager state is completely unchanged — the
usage counter is not incremented and no reset bookkeeping occurs. -/
theorem c6_generate_without_instance_is_noop (m : VannaManager)
    (outcome : GenOutcome) (now : Nat) (h : m.vanna_instance = none) :
    m.generate_sql_safe outcome now = (.error .noInstance, m) :=
  generate_sql_safe_none m outcome now h

/-- Witness for C6 on a freshly initialized manager (no instance yet). -/
theorem c6_witness :
    (VannaManager.mkInit "k" 0).generate_sql_safe (.ok "SELECT 1") 5 =
      (.error .noInstance, VannaManager.mkInit "k" 0) :=
  c6_generate_without_instance_is_noop (VannaManager.mkInit "k" 0) (.ok "SELECT 1") 5 rfl

/-- C7: the output sanitization applied to the exact response
`"Here is the SQL query:\n```sql\nSELECT 1\n```"` yields exactly
`"SELECT 1"`. -/
theorem c7_sanitizer_fenced_example :
    NIMCustomLLM.cleanResponseContent "Here is the SQL query:\n```sql\nSELECT 1\n```" =
      "SELECT 1" := by
  decide

/-- C8 counterexample: the claim says no prose line following the SQL appears
in the cleaned output, but the loop only recognises prose through the
case-insensitive prefixes Here/The/This/Based/It/Query. For the response
`"SELECT 1\nNote that this query counts rows"` the trailing line is kept in
the cleaned output even though it does not begin with a statement keyword
(and is not matched by the prose heuristic). -/
theorem c8_counterexample_prose_line_kept :
    NIMCustomLLM.cleanResponseContent "SELECT 1\nNote that this query counts rows" =
      "SELECT 1\nNote that this query counts rows" ∧
    matchesKeyword (stripChars "Note that this query counts rows".data) = false ∧
    matchesProse (stripChars "Note that this query counts rows".data) = false := by
  refine ⟨by decide, by decide, by decide⟩

/-- C8 amended: the extraction keeps the stripped non-blank lines from the
first statement-keyword line onward, and stops at the first subsequent line
matching the case-insensitive prefix heuristic Here/The/This/Based/It/Query;
a prose line not matching that heuristic (and any line before the stop
point) is kept. Formally the loop equals the declarative
drop-blanks/dropWhile/takeWhile description. -/
theorem c8_amended_extraction_behavior :
    ∀ (ls : List (List Char)), extractSqlLines ls false = extractSqlLinesSpec ls :=
  fun ls => extractSqlLines_eq_spec ls

/-- C9: the contamination check is a case-sensitive substring test over the
fixed indicator list; any generator output containing an indicator — even
otherwise-valid SQL containing the lowercase word `null` — raises the
contamination error and clears the instance, while the uppercase form
`NULL` alone does not trigger it. -/
theorem c9_contamination_is_case_sensitive_substring :
    (∀ (sql ind : String), ind ∈ contamination_indicators → containsSub ind sql = true →
        VannaManager.is_contaminated_response sql = true) ∧
    (∀ (m : VannaManager) (v : ContaminationPreventionVanna) (sql : String) (now : Nat),
        m.vanna_instance = some v →
        VannaManager.is_contaminated_response sql = true →
        (m.generate_sql_safe (.ok sql) now).1 = .error .contaminated ∧
        (m.generate_sql_safe (.ok sql) now).2.vanna_instance = none) ∧
    VannaManager.is_contaminated_response
      "SELECT name FROM users WHERE email is null" = true ∧
    VannaManager.is_contaminated_response
      "SELECT name FROM users WHERE email IS NULL" = false ∧
    (∀ (m : VannaManager) (v : ContaminationPreventionVanna) (now : Nat),
        m.vanna_instance = some v →
        (m.generate_sql_safe (.ok "SELECT name FROM users WHERE email IS NULL") now).1 =
          .ok "SELECT name FROM users WHERE email IS NULL") := by
  refine ⟨?_, ?_, by decide, by decide, ?_⟩
  · intro sql ind hind hsub
    simp only [VannaManager.is_contaminated_response, List.any_eq_true]
    exact ⟨ind, hind, hsub⟩
  · intro m v sql now hv hc
    rw [generate_sql_safe_contaminated_eq m v sql now hv hc]
    exact ⟨rfl, rfl⟩
  · intro m v now hv
    rw [generate_sql_safe_ok_success_eq m v _ now hv (by decide) (by decide)]

/-- Witness for C9: a concrete SQL query containing lowercase `null` is
flagged as contaminated via the substring test. -/
theorem c9_witness :
    VannaManager.is_contaminated_response "SELECT 1 WHERE x is null" = true :=
  c9_contamination_is_case_sensitive_substring.1 "SELECT 1 WHERE x is null" "null"
    (by decide) (by decide)

/-- C3: usage-counter accounting. A failing generator call still increments
the counter (up to the every-10th-error reset); `n` successful calls from a
fresh instance leave the counter at `n` with the same live instance; the
counter is 0 right after instance creation and after every reset (including
forced reset); and in every reachable manager state the counter is
non-negative. -/
theorem c3_usage_counter_accounting :
    (∀ (m : VannaManager) (v : ContaminationPreventionVanna) (now : Nat),
        m.vanna_instance = some v →
        (m.generate_sql_safe .err now).2.query_count =
          if (m.query_count + 1) % 10 == 0 then 0 else m.query_count + 1) ∧
    (∀ (sqls : List String) (m : VannaManager) (v : ContaminationPreventionVanna)
        (now : Nat),
        m.vanna_instance = some v → m.query_count = 0 →
        (∀ sql ∈ sqls, pyStrip sql ≠ "" ∧
          VannaManager.is_contaminated_response sql = false) →
        (sqls.foldl (fun mm sql => (mm.generate_sql_safe (.ok sql) now).2) m).query_count =
          sqls.length ∧
        ∃ v1,
          (sqls.foldl (fun mm sql => (mm.generate_sql_safe (.ok sql) now).2) m).vanna_instance =
            some v1 ∧ v1.instId = v.instId) ∧
    (∀ (m : VannaManager) (now : Nat) (idx : List TrainingExample),
        m.vanna_instance = none → (m.get_instance now idx).1.query_count = 0) ∧
    (∀ (m : VannaManager) (now : Nat),
        (m.reset_instance now).query_count = 0 ∧ (m.force_reset now).query_count = 0) ∧
    (∀ (m : VannaManager), MReachable m → 0 ≤ m.query_count) := by
  refine ⟨?_, ?_, ?_, fun m now => ⟨rfl, rfl⟩,
    fun m h => mreachable_query_count_nonneg m h⟩
  · intro m v now hv
    rw [generate_sql_safe_err_eq m v now hv]
    by_cases h10 : (m.query_count + 1) % 10 == 0
    · simp [h10]
    · simp [h10]
  · intro sqls m v now hv h0 hall
    have := foldl_ok_success sqls m v now hv hall
    refine ⟨?_, this.2⟩
    rw [this.1, h0]
    omega
  · intro m now idx hv
    simp [VannaManager.get_instance, hv]

/-- Witness for C3: a failing call on a fresh instance (counter 0) leaves the
counter at 1. -/
theorem c3_witness :
    ((((VannaManager.mkInit "k" 0).get_instance 0 []).1).generate_sql_safe .err 3).2.query_count =
      if (((((VannaManager.mkInit "k" 0).get_instance 0 []).1)).query_count + 1) % 10 == 0
      then 0
      else ((((VannaManager.mkInit "k" 0).get_instance 0 []).1)).query_count + 1 :=
  c3_usage_counter_accounting.1 (((VannaManager.mkInit "k" 0).get_instance 0 []).1)
    (ContaminationPreventionVanna.mkFresh 0 []) 3 rfl

/-- C5: when `generate_sql_safe` catches a generator exception it re-raises
it, resetting the instance first exactly when the usage counter at that
moment is a multiple of 10; a fresh instance suffering 10 consecutive
failures keeps its identity through the first 9 and is reset exactly once,
at the 10th. -/
theorem c5_tenth_error_reset_policy :
    (∀ (m : VannaManager) (v : ContaminationPreventionVanna) (now : Nat),
        m.vanna_instance = some v →
        (m.generate_sql_safe .err now).1 = .error .genFailure ∧
        (((m.query_count + 1) % 10 == 0) = true →
          (m.generate_sql_safe .err now).2.vanna_instance = none ∧
          (m.generate_sql_safe .err now).2.query_count = 0) ∧
        (((m.query_count + 1) % 10 == 0) = false →
          (∃ v1, (m.generate_sql_safe .err now).2.vanna_instance = some v1 ∧
            v1.instId = v.instId) ∧
          (m.generate_sql_safe .err now).2.query_count = m.query_count + 1)) ∧
    ((List.range 10).all (fun k =>
        ((((fun mm : VannaManager => (mm.generate_sql_safe .err 0).2)^[k])
            (((VannaManager.mkInit "k" 0).get_instance 0 []).1)).vanna_instance.map
          fun v => v.instId) == some 0) = true ∧
      (((fun mm : VannaManager => (mm.generate_sql_safe .err 0).2)^[10])
          (((VannaManager.mkInit "k" 0).get_instance 0 []).1)).vanna_instance = none ∧
      (((fun mm : VannaManager => (mm.generate_sql_safe .err 0).2)^[10])
          (((VannaManager.mkInit "k" 0).get_instance 0 []).1)).query_count = 0) := by
  refine ⟨?_, by decide, by decide, by decide⟩
  intro m v now hv
  rw [generate_sql_safe_err_eq m v now hv]
  refine ⟨rfl, ?_, ?_⟩
  · intro h10
    simp [h10]
  · intro h10
    constructor
    · refine ⟨{ v with allow_llm_to_see_data := true, strict_mode := true, auto_train_enabled := false }, ?_, rfl⟩
      simp [h10]
    · simp [h10]

/-- Witness for C5: the first failure on a fresh instance does not reset. -/
theorem c5_witness :
    ((((VannaManager.mkInit "k" 0).get_instance 0 []).1).generate_sql_safe .err 2).1 =
      .error .genFailure :=
  (c5_tenth_error_reset_policy.1 (((VannaManager.mkInit "k" 0).get_instance 0 []).1)
    (ContaminationPreventionVanna.mkFresh 0 []) 2 rfl).1

set_option maxRecDepth 8000 in
/-- C4 counterexample: with threshold 50, on an otherwise-idle key (no
operations between the calls) the 51st `get_instance` call returns an
instance with the SAME identity as the first call, and the manager state is
unchanged from the state after the first call — `get_instance` alone never
advances the usage counter, so no reconstruction is triggered. -/
theorem c4_counterexample_51st_get_instance_same_identity :
    ((((fun mm : VannaManager => (mm.get_instance 0 []).1)^[50])
        (VannaManager.mkInit "k" 0)).get_instance 0 []).2.instId =
      ((VannaManager.mkInit "k" 0).get_instance 0 []).2.instId ∧
    (((fun mm : VannaManager => (mm.get_instance 0 []).1)^[50])
        (VannaManager.mkInit "k" 0)) =
      ((VannaManager.mkInit "k" 0).get_instance 0 []).1 := by
  refine ⟨by decide, by decide⟩


/-- C4 amended: `get_instance` does not advance the usage counter; with a
live instance strictly below the threshold it returns the same instance and
leaves the manager unchanged (hence repeated idle `get_instance` calls —
in particular 51 of them — all return the identical instance). A
`get_instance` call made when the counter (advanced only by
`generate_sql_safe`) has reached the threshold reconstructs: the returned
identity differs from the previous instance's identity and the counter is
reset to 0. -/
theorem c4_amended_threshold_governs_reconstruction :
    (∀ (m : VannaManager) (v : ContaminationPreventionVanna) (now : Nat)
        (idx : List TrainingExample),
        m.vanna_instance = some v → m.query_count < m.contamination_threshold →
        m.get_instance now idx = (m, v)) ∧
    (∀ (m : VannaManager) (v : ContaminationPreventionVanna) (now : Nat)
        (idx : List TrainingExample),
        MReachable m →
        m.vanna_instance = some v → m.query_count ≥ m.contamination_threshold →
        (m.get_instance now idx).2.instId ≠ v.instId ∧
        (m.get_instance now idx).1.vanna_instance = some ((m.get_instance now idx).2) ∧
        (m.get_instance now idx).1.query_count = 0) := by
  constructor
  · intro m v now idx hv hlt
    have hnle : ¬ (m.contamination_threshold ≤ m.query_count) := by omega
    simp [VannaManager.get_instance, hv, hnle]
  · intro m v now idx hr hv hge
    have hid := mreachable_instId_lt_next m hr v hv
    have hle : m.contamination_threshold ≤ m.query_count := hge
    have hcond : (m.vanna_instance.isSome &&
        decide (m.query_count ≥ m.contamination_threshold)) = true := by
      simp [hv, ge_iff_le, hle]
    refine ⟨?_, ?_, ?_⟩
    · simp [VannaManager.get_instance, hcond, VannaManager.reset_instance,
            ContaminationPreventionVanna.mkFresh]
      omega
    · simp [VannaManager.get_instance, hcond, VannaManager.reset_instance]
    · simp [VannaManager.get_instance, hcond, VannaManager.reset_instance]

/-- Witness for C4's amended claim: on a fresh manager whose instance has
served no queries, `get_instance` returns the identical instance and
changes nothing. -/
theorem c4_amended_witness :
    ((((VannaManager.mkInit "k" 0).get_instance 0 []).1).get_instance 5 []) =
      ((((VannaManager.mkInit "k" 0).get_instance 0 []).1),
        ContaminationPreventionVanna.mkFresh 0 []) :=
  c4_amended_threshold_governs_reconstruction.1
    (((VannaManager.mkInit "k" 0).get_instance 0 []).1)
    (ContaminationPreventionVanna.mkFresh 0 []) 5 [] rfl (by decide)

/-- C10: the per-key singleton construction. In every reachable registry,
every stored manager has its initialized flag set, and constructing
`VannaManager(key)` again for a registered key returns the identical stored
manager and leaves the registry (and therefore the usage counter, stored
instance, threshold and last-reset time of that manager) unchanged. -/
theorem c10_singleton_repeated_construction_noop :
    (∀ (reg : String → Option VannaManager), RegReachable reg →
        ∀ (k : String) (m : VannaManager), reg k = some m → m.initialized = true) ∧
    (∀ (reg : String → Option VannaManager), RegReachable reg →
        ∀ (k : String) (m : VannaManager) (now : Nat), reg k = some m →
        VannaManager.construct reg k now = (reg, m)) :=
  ⟨fun reg hr => reg_invariant_initialized reg hr,
    fun reg hr k m now hk => construct_noop_of_registered reg hr k m now hk⟩

/-- Witness for C10: constructing twice with the same key returns the
registry and manager produced by the first construction, unchanged. -/
theorem c10_witness :
    VannaManager.construct ((VannaManager.construct (fun _ => none) "a" 2).1) "a" 9 =
      (((VannaManager.construct (fun _ => none) "a" 2).1),
        VannaManager.ctorInit "a" 2 (VannaManager.allocRaw "a")) :=
  c10_singleton_repeated_construction_noop.2
    ((VannaManager.construct (fun _ => none) "a" 2).1)
    (RegReachable.constructStep (fun _ => none) "a" 2 RegReachable.empty) "a"
    (VannaManager.ctorInit "a" 2 (VannaManager.allocRaw "a")) 9 rfl
